import Mathlib

/-!
Verification of the tempconvert HTTP API (src/tempconvert/main.go).

The Go program registers two handlers on a mux: helloHandler on "/" and
celsiusHandler on "/celsius".  celsiusHandler reads the first value of the
"fahrenheit" query parameter, parses it with strconv.ParseFloat, applies
celsiusResolver (the linear transform (f - 32) * 5 / 9 in float64
arithmetic), and serializes the reply with celsiusMarshaller according to
the "accept" request header.

The embedding is parameterized over the carrier type of float64 values and
over the standard-library calls the handler makes (strconv.ParseFloat,
strconv.FormatFloat, json.Marshal, proto.Marshal), collected in a Runtime
structure: these are library code, not code of this repository, so the
control flow of the handler is proved for every interpretation of them.  The
arithmetic of celsiusResolver is likewise parameterized (FloatOps); a
concrete model of IEEE-754 binary64 round-to-nearest-even arithmetic over
the rationals (round64, f64Ops) instantiates it for the exact-value claims.
-/

namespace TempConvert

/-- Mirrors contract.TempConvertRequest: one float64 field, Fahrenheit. -/
structure TempConvertRequest (α : Type) where
  fahrenheit : α

/-- Mirrors contract.TempConvertReply: one float64 field, Celsius. -/
structure TempConvertReply (α : Type) where
  celsius : α

/-- The float64 arithmetic operations used by celsiusResolver, abstracted:
sub, mul and div are the Go binary operators on float64, lit is the
conversion of the untyped integer constants 32, 5, 9 to float64. -/
structure FloatOps (α : Type) where
  sub : α → α → α
  mul : α → α → α
  div : α → α → α
  lit : ℕ → α

/-- Mirrors celsiusResolver (main.go lines 46-49):
c := (r.Fahrenheit - 32) * 5 / 9, Go evaluation order (left associative). -/
def celsiusResolver (ops : FloatOps α) (r : TempConvertRequest α) : TempConvertReply α :=
  { celsius := ops.div (ops.mul (ops.sub r.fahrenheit (ops.lit 32)) (ops.lit 5)) (ops.lit 9) }

/-- A response body: either text written from a string (the plain-text and
error paths) or raw bytes produced by a marshaller. -/
inductive Body where
  | str (s : String)
  | bytes (b : List ℕ)
deriving DecidableEq

/-- The observable parts of an HTTP response the handlers produce: status
code, Content-Type header, body. -/
structure HttpResponse where
  status : ℕ
  contentType : String
  body : Body
deriving DecidableEq

/-- The parts of an HTTP request the handlers read: the URL path, the raw
query key-value pairs in order, and the accept header value ("" when the
header is absent, as returned by r.Header.Get). -/
structure HttpRequest where
  path : String
  query : List (String × String)
  accept : String

/-- Mirrors r.URL.Query()[k]: the list of values of every occurrence of the
key k in the query string, in order.  The key is present in the url.Values
map exactly when this list is nonempty. -/
def lookupAll (q : List (String × String)) (k : String) : List String :=
  (q.filter (fun p => p.1 == k)).map (fun p => p.2)

/-- The standard-library calls celsiusHandler and celsiusMarshaller make,
abstracted: parseFloat is strconv.ParseFloat(s, 64) (none on error),
formatFloat is strconv.FormatFloat(c, 103, -1, 64), jsonMarshal is
json.Marshal of the reply, protoMarshal is proto.Marshal of the reply
(each returning bytes or an error string). -/
structure Runtime (α : Type) where
  ops : FloatOps α
  parseFloat : String → Option α
  formatFloat : α → String
  jsonMarshal : TempConvertReply α → Except String (List ℕ)
  protoMarshal : TempConvertReply α → Except String (List ℕ)

/-- Mirrors the net/http function http.Error(w, msg, code): it sets the Content-Type
header to text/plain with the utf-8 charset and writes the message followed
by a newline (fmt.Fprintln). -/
def httpError (msg : String) (code : ℕ) : HttpResponse :=
  { status := code
    contentType := "text/plain; charset=utf-8"
    body := .str (msg ++ "\n") }

/-- Mirrors celsiusMarshaller (main.go lines 51-63).  It first sets
Content-Type to the accept header value, then switches on it: the protobuf
and json cases return the bytes or error of the library marshaller, the default
case resets Content-Type to text/plain and returns the celsius value
formatted by strconv.FormatFloat.  The returned pair is the final
Content-Type value and the bytes-or-error result. -/
def celsiusMarshaller (R : Runtime α) (accept : String) (reply : TempConvertReply α) :
    String × Except String Body :=
  if accept = "application/protobuf" then (accept, (R.protoMarshal reply).map Body.bytes)
  else if accept = "application/json" then (accept, (R.jsonMarshal reply).map Body.bytes)
  else ("text/plain", .ok (.str (R.formatFloat reply.celsius)))

/-- Mirrors the tail of celsiusHandler (main.go lines 38-43): call
celsiusMarshaller; on error respond via http.Error with the error text and
status 500, otherwise write the body (implicit status 200). -/
def respondWith (R : Runtime α) (accept : String) (reply : TempConvertReply α) : HttpResponse :=
  match (celsiusMarshaller R accept reply).2 with
  | .ok b => { status := 200, contentType := (celsiusMarshaller R accept reply).1, body := b }
  | .error e => httpError e 500

/-- Mirrors celsiusHandler (main.go lines 26-44): if the fahrenheit query
parameter is absent, 400 with the missing-parameter message; if its first
value does not parse, 400 with the invalid-value message; otherwise resolve
and marshal the reply. -/
def celsiusHandler (R : Runtime α) (req : HttpRequest) : HttpResponse :=
  match lookupAll req.query "fahrenheit" with
  | [] => httpError "missing fahrenheit URL query param" 400
  | s :: _ =>
    match R.parseFloat s with
    | none => httpError "invalid fahrenheit value" 400
    | some f => respondWith R req.accept (celsiusResolver R.ops { fahrenheit := f })

/-- Mirrors helloHandler (main.go lines 22-24): write "Hello World!"
(implicit status 200; Go content sniffing yields text/plain). -/
def helloHandler (_req : HttpRequest) : HttpResponse :=
  { status := 200, contentType := "text/plain; charset=utf-8", body := .str "Hello World!" }

/-- Mirrors GetMux (main.go lines 15-20): the pattern "/celsius" matches
exactly that path, the pattern "/" matches every other path. -/
def getMux (R : Runtime α) (req : HttpRequest) : HttpResponse :=
  if req.path = "/celsius" then celsiusHandler R req else helloHandler req

/-- Fuel-driven floor of the base-2 logarithm of a natural number (0 for
inputs below 2); called with fuel = n, so log2fuel n n is floor(log2 n) for
n at least 1. -/
def log2fuel : ℕ → ℕ → ℕ
  | 0, _ => 0
  | fuel + 1, n => if n ≤ 1 then 0 else log2fuel fuel (n / 2) + 1

/-- Floor of the base-2 logarithm of a positive natural number. -/
def natLog2 (n : ℕ) : ℕ := log2fuel n n

/-- Floor of the base-2 logarithm of a positive rational: the unique e with
2 ^ e ≤ q < 2 ^ (e + 1). -/
def qlog2 (q : ℚ) : ℤ :=
  if (2 : ℚ) ^ ((natLog2 q.num.toNat : ℤ) - (natLog2 q.den : ℤ)) ≤ q
  then (natLog2 q.num.toNat : ℤ) - (natLog2 q.den : ℤ)
  else (natLog2 q.num.toNat : ℤ) - (natLog2 q.den : ℤ) - 1

/-- Round a rational to the nearest integer, ties to even. -/
def rne (x : ℚ) : ℤ :=
  if x - ⌊x⌋ < 1 / 2 then ⌊x⌋
  else if (1 : ℚ) / 2 < x - ⌊x⌋ then ⌊x⌋ + 1
  else if ⌊x⌋ % 2 = 0 then ⌊x⌋ else ⌊x⌋ + 1

/-- IEEE-754 binary64 rounding (round to nearest, ties to even) of an exact
rational result, modelled over ℚ: the result is the nearest-even multiple
of the unit in the last place at the binade of the result, with the exponent
clamped below at -1022 (subnormal range).  Finite non-overflowing range;
every value in the claims is far below the overflow threshold. -/
def round64 (q : ℚ) : ℚ :=
  if q = 0 then 0
  else (rne (q / (2 : ℚ) ^ (max (qlog2 |q|) (-1022) - 52)) : ℚ) *
    (2 : ℚ) ^ (max (qlog2 |q|) (-1022) - 52)

/-- IEEE-754 binary64 arithmetic as a FloatOps instance over ℚ: every Go
float64 operation returns the correctly rounded exact result, and the
integer constants 32, 5, 9 convert exactly (they are representable). -/
def f64Ops : FloatOps ℚ where
  sub x y := round64 (x - y)
  mul x y := round64 (x * y)
  div x y := round64 (x / y)
  lit n := round64 n

/-- A TempConvertReply with its float64 celsius field represented by the
64-bit pattern of the value, as the protobuf wire encoding transmits it. -/
structure ReplyBits where
  celsiusBits : ℕ
deriving DecidableEq

/-- Little-endian byte decomposition: k bytes of n. -/
def leBytes : ℕ → ℕ → List ℕ
  | 0, _ => []
  | k + 1, n => (n % 256) :: leBytes k (n / 256)

/-- Recompose a little-endian byte list into a natural number. -/
def fromLeBytes : List ℕ → ℕ
  | [] => 0
  | b :: bs => b + 256 * fromLeBytes bs

/-- Modelled from the spec: the structured binary format of the reply (the
protobuf encoding of contract.TempConvertReply, whose generated code is not
under src/).  Per the protobuf wire format, a double field with number 1 is
encoded as the tag byte 0x09 (field 1, wire type I64) followed by the 8
bytes of the value, little endian; proto3 omits a field holding the zero
value, so the zero reply encodes to no bytes. -/
def protoMarshalReply (r : ReplyBits) : List ℕ :=
  if r.celsiusBits = 0 then [] else 9 :: leBytes 8 r.celsiusBits

/-- Modelled from the spec: decoding of the structured binary format (see
protoMarshalReply).  An empty message decodes to the default zero value; a
tag byte 0x09 must be followed by exactly 8 bytes of the little-endian
value. -/
def protoUnmarshalReply : List ℕ → Option ReplyBits
  | [] => some { celsiusBits := 0 }
  | 9 :: rest => if rest.length = 8 then some { celsiusBits := fromLeBytes rest } else none
  | _ => none

/-- Exact rational arithmetic as a FloatOps instance, used to exhibit
concrete instances of the theorems that are generic in the runtime. -/
def qOps : FloatOps ℚ where
  sub x y := x - y
  mul x y := x * y
  div x y := x / y
  lit n := (n : ℚ)

/-- A concrete stand-in for strconv.ParseFloat covering the inputs the
concrete instances use. -/
def toyParse (s : String) : Option ℚ :=
  if s == "32" then some 32 else if s == "212" then some 212 else none

/-- A concrete runtime whose marshallers always succeed. -/
def toyRT : Runtime ℚ where
  ops := qOps
  parseFloat := toyParse
  formatFloat _ := "0"
  jsonMarshal _ := .ok [48]
  protoMarshal _ := .ok [49]

/-- A concrete runtime whose json marshaller fails, exhibiting the
serialization-error path. -/
def errRT : Runtime ℚ where
  ops := qOps
  parseFloat := toyParse
  formatFloat _ := "0"
  jsonMarshal _ := .error "json marshal failed"
  protoMarshal _ := .ok [49]

/-- A request to /celsius with fahrenheit=32 and no accept header. -/
def req32 : HttpRequest := { path := "/celsius", query := [("fahrenheit", "32")], accept := "" }

/-- A request to /celsius with no query parameters. -/
def reqMissing : HttpRequest := { path := "/celsius", query := [], accept := "" }

/-- A request to /celsius with an unparsable fahrenheit value. -/
def reqBad : HttpRequest := { path := "/celsius", query := [("fahrenheit", "abc")], accept := "" }

/-- A request to /celsius with the fahrenheit parameter given twice. -/
def reqDup : HttpRequest :=
  { path := "/celsius", query := [("fahrenheit", "32"), ("fahrenheit", "212")], accept := "" }

/-- A request to /celsius with fahrenheit=32 and accept application/json. -/
def reqJson : HttpRequest :=
  { path := "/celsius", query := [("fahrenheit", "32")], accept := "application/json" }

/-- A request to the root path. -/
def reqRoot : HttpRequest := { path := "/", query := [], accept := "" }

theorem rne_intCast (n : ℤ) : rne (n : ℚ) = n := by
  unfold rne
  norm_num

theorem round64_eq_self (q : ℚ) (n : ℤ) (hq : q ≠ 0)
    (h : q = (n : ℚ) * (2 : ℚ) ^ (max (qlog2 |q|) (-1022) - 52)) : round64 q = q := by
  unfold round64
  rw [if_neg hq]
  set E : ℤ := max (qlog2 |q|) (-1022) - 52 with hE
  have hulp : (2 : ℚ) ^ E ≠ 0 := zpow_ne_zero _ (by norm_num)
  have hdiv : q / (2 : ℚ) ^ E = (n : ℚ) := by
    rw [h, mul_div_assoc, div_self hulp, mul_one]
  rw [hdiv, rne_intCast, ← h]

theorem qlog2_eval (m : ℕ) (e : ℕ) (h1 : natLog2 m = e) (h2 : natLog2 1 = 0)
    (hle : (2 : ℚ) ^ (e : ℤ) ≤ (m : ℚ)) : qlog2 (m : ℚ) = e := by
  unfold qlog2
  rw [Rat.num_natCast, Rat.den_natCast, Int.toNat_natCast, h1, h2]
  simp only [Nat.cast_zero, sub_zero]
  rw [if_pos hle]

theorem round64_natCast (m : ℕ) (e : ℕ) (h0 : (m : ℚ) ≠ 0) (he : qlog2 (m : ℚ) = e)
    (hle : e ≤ 52) : round64 (m : ℚ) = m := by
  have habs : |(m : ℚ)| = m := abs_of_nonneg (by positivity)
  have hmax : max (qlog2 |(m : ℚ)|) (-1022) = (e : ℤ) := by
    rw [habs, he]
    exact max_eq_left (by linarith [Int.natCast_nonneg e])
  refine round64_eq_self _ ((m : ℤ) * 2 ^ (52 - e)) h0 ?_
  rw [hmax]
  push_cast
  rw [← zpow_natCast (2 : ℚ) (52 - e)]
  rw [mul_assoc, ← zpow_add₀ (by norm_num : (2 : ℚ) ≠ 0)]
  have h52 : ((52 - e : ℕ) : ℤ) + ((e : ℤ) - 52) = 0 := by omega
  rw [h52, zpow_zero, mul_one]

theorem round64_val (m : ℕ) (e : ℕ) (h1 : natLog2 m = e)
    (hle : (2 : ℚ) ^ (e : ℤ) ≤ (m : ℚ)) (h0 : (m : ℚ) ≠ 0) (he52 : e ≤ 52) :
    round64 (m : ℚ) = m :=
  round64_natCast m e h0 (qlog2_eval m e h1 (by decide) hle) he52

theorem round64_zero : round64 0 = 0 := by
  unfold round64
  norm_num

theorem round64_c32 : round64 (32 : ℚ) = 32 := by
  have h := round64_val 32 5 (by decide) (by norm_num) (by norm_num) (by norm_num)
  norm_num at h
  exact h

theorem round64_c5 : round64 (5 : ℚ) = 5 := by
  have h := round64_val 5 2 (by decide) (by norm_num) (by norm_num) (by norm_num)
  norm_num at h
  exact h

theorem round64_c9 : round64 (9 : ℚ) = 9 := by
  have h := round64_val 9 3 (by decide) (by norm_num) (by norm_num) (by norm_num)
  norm_num at h
  exact h

theorem round64_c180 : round64 (180 : ℚ) = 180 := by
  have h := round64_val 180 7 (by decide) (by norm_num) (by norm_num) (by norm_num)
  norm_num at h
  exact h

theorem round64_c900 : round64 (900 : ℚ) = 900 := by
  have h := round64_val 900 9 (by decide) (by norm_num) (by norm_num) (by norm_num)
  norm_num at h
  exact h

theorem round64_c100 : round64 (100 : ℚ) = 100 := by
  have h := round64_val 100 6 (by decide) (by norm_num) (by norm_num) (by norm_num)
  norm_num at h
  exact h

/-- C6: the conversion, computed in IEEE-754 binary64 arithmetic (every
operation returns the correctly rounded exact result), maps the input 32
exactly to celsius 0 and the input 212 exactly to celsius 100: every
intermediate result (0, 180, 900) and both final results are exactly
representable, so no rounding error occurs. -/
theorem celsius_exact_32_212 :
    (celsiusResolver f64Ops { fahrenheit := (32 : ℚ) }).celsius = 0 ∧
    (celsiusResolver f64Ops { fahrenheit := (212 : ℚ) }).celsius = 100 := by
  constructor
  · show round64 (round64 (round64 ((32 : ℚ) - round64 ((32 : ℕ) : ℚ)) *
      round64 ((5 : ℕ) : ℚ)) / round64 ((9 : ℕ) : ℚ)) = 0
    norm_num [round64_c32, round64_c5, round64_c9]
    rw [round64_zero]
    norm_num
    rw [round64_zero]
    norm_num
    rw [round64_zero]
  · show round64 (round64 (round64 ((212 : ℚ) - round64 ((32 : ℕ) : ℚ)) *
      round64 ((5 : ℕ) : ℚ)) / round64 ((9 : ℕ) : ℚ)) = 100
    norm_num [round64_c32, round64_c5, round64_c9, round64_c180]
    norm_num [round64_c900]
    rw [round64_c100]

theorem leBytes_length (k : ℕ) : ∀ n : ℕ, (leBytes k n).length = k := by
  induction k with
  | zero => intro n; rfl
  | succ k ih => intro n; simp [leBytes, ih]

theorem fromLeBytes_leBytes (k : ℕ) : ∀ n : ℕ, n < 256 ^ k → fromLeBytes (leBytes k n) = n := by
  induction k with
  | zero =>
    intro n h
    simp [pow_zero] at h
    simp [leBytes, fromLeBytes, h]
  | succ k ih =>
    intro n h
    have hlt : n / 256 < 256 ^ k := by
      rw [Nat.div_lt_iff_lt_mul (by norm_num)]
      calc n < 256 ^ (k + 1) := h
        _ = 256 ^ k * 256 := by ring
    simp only [leBytes, fromLeBytes, ih (n / 256) hlt]
    omega

/-- C5: encoding a reply in the structured binary format (the protobuf wire
encoding of the one double field, modelled from the spec since the
generated contract code is not under src) and decoding the bytes yields a
reply with the same celsius value. -/
theorem proto_roundtrip (r : ReplyBits) (h : r.celsiusBits < 2 ^ 64) :
    protoUnmarshalReply (protoMarshalReply r) = some r := by
  obtain ⟨b⟩ := r
  by_cases h0 : b = 0
  · subst h0
    rfl
  · have hm : protoMarshalReply { celsiusBits := b } = 9 :: leBytes 8 b := by
      simp [protoMarshalReply, h0]
    rw [hm]
    have hb : b < 256 ^ 8 := by
      calc b < 2 ^ 64 := h
        _ = 256 ^ 8 := by norm_num
    simp [protoUnmarshalReply, leBytes_length, fromLeBytes_leBytes 8 b hb]

/-- Witness for C5 at the concrete bit pattern 1. -/
theorem proto_roundtrip_witness :
    (1 : ℕ) < 2 ^ 64 ∧
      protoUnmarshalReply (protoMarshalReply { celsiusBits := 1 }) = some { celsiusBits := 1 } :=
  ⟨by norm_num, proto_roundtrip { celsiusBits := 1 } (by norm_num)⟩

theorem respondWith_status {α : Type} (R : Runtime α) (a : String) (rep : TempConvertReply α) :
    (respondWith R a rep).status = 200 ∨ (respondWith R a rep).status = 500 := by
  unfold respondWith
  split <;> simp [httpError]

theorem celsiusHandler_parsed {α : Type} (R : Runtime α) (req : HttpRequest)
    (s : String) (l : List String) (f : α)
    (hq : lookupAll req.query "fahrenheit" = s :: l) (hp : R.parseFloat s = some f) :
    celsiusHandler R req = respondWith R req.accept (celsiusResolver R.ops { fahrenheit := f }) := by
  unfold celsiusHandler
  simp only [hq, hp]

/-- C1: for every request to /celsius whose fahrenheit query parameter is
present and whose first value parses as a float f, the reply handed to the
marshaller carries exactly (f - 32) * 5 / 9 evaluated in the runtime
float64 arithmetic, with no rounding step applied afterwards; the theorem
holds for every interpretation of the float64 operations, in particular
for IEEE-754 binary64. -/
theorem celsius_reply_formula {α : Type} (R : Runtime α) (req : HttpRequest)
    (s : String) (l : List String) (f : α)
    (hq : lookupAll req.query "fahrenheit" = s :: l) (hp : R.parseFloat s = some f) :
    celsiusHandler R req =
      respondWith R req.accept
        { celsius := R.ops.div (R.ops.mul (R.ops.sub f (R.ops.lit 32)) (R.ops.lit 5))
            (R.ops.lit 9) } := by
  rw [celsiusHandler_parsed R req s l f hq hp]
  rfl

/-- Witness for C1: the concrete runtime over ℚ at fahrenheit=32. -/
theorem celsius_reply_formula_witness :
    lookupAll req32.query "fahrenheit" = ["32"] ∧ toyRT.parseFloat "32" = some 32 ∧
      celsiusHandler toyRT req32 =
        respondWith toyRT req32.accept
          { celsius := toyRT.ops.div
              (toyRT.ops.mul (toyRT.ops.sub 32 (toyRT.ops.lit 32)) (toyRT.ops.lit 5))
              (toyRT.ops.lit 9) } :=
  ⟨rfl, rfl, celsius_reply_formula toyRT req32 "32" [] 32 rfl rfl⟩

/-- C2: the /celsius endpoint responds 400 exactly when the fahrenheit
query parameter is absent or its first value does not parse; the body is
then the missing-parameter or invalid-value plain-text message
respectively (written by http.Error, so with a trailing newline), and no
conversion result is written. -/
theorem celsius_badRequest_iff {α : Type} (R : Runtime α) (req : HttpRequest) :
    ((celsiusHandler R req).status = 400 ↔
      lookupAll req.query "fahrenheit" = [] ∨
        ∃ s l, lookupAll req.query "fahrenheit" = s :: l ∧ R.parseFloat s = none) ∧
    (lookupAll req.query "fahrenheit" = [] →
      celsiusHandler R req = httpError "missing fahrenheit URL query param" 400) ∧
    (∀ s l, lookupAll req.query "fahrenheit" = s :: l → R.parseFloat s = none →
      celsiusHandler R req = httpError "invalid fahrenheit value" 400) := by
  refine ⟨⟨?_, ?_⟩, ?_, ?_⟩
  · intro h400
    cases hq : lookupAll req.query "fahrenheit" with
    | nil => exact Or.inl rfl
    | cons s l =>
      cases hp : R.parseFloat s with
      | none => exact Or.inr ⟨s, l, rfl, hp⟩
      | some f =>
        exfalso
        rw [celsiusHandler_parsed R req s l f hq hp] at h400
        rcases respondWith_status R req.accept (celsiusResolver R.ops { fahrenheit := f })
          with h | h <;> omega
  · rintro (hq | ⟨s, l, hq, hp⟩)
    · simp [celsiusHandler, hq, httpError]
    · simp [celsiusHandler, hq, hp, httpError]
  · intro hq
    simp [celsiusHandler, hq]
  · intro s l hq hp
    simp [celsiusHandler, hq, hp]

/-- Witness for C2: the missing-parameter and invalid-value requests. -/
theorem celsius_badRequest_iff_witness :
    celsiusHandler toyRT reqMissing = httpError "missing fahrenheit URL query param" 400 ∧
      celsiusHandler toyRT reqBad = httpError "invalid fahrenheit value" 400 :=
  ⟨(celsius_badRequest_iff toyRT reqMissing).2.1 rfl,
   (celsius_badRequest_iff toyRT reqBad).2.2 "abc" [] rfl rfl⟩

/-- C3: for every successful /celsius request the body encoding is a
function of the accept header: json bytes when the header is exactly
application/json, protobuf bytes when it is exactly application/protobuf,
and otherwise (any other value, including absent, modelled as "") the
celsius value formatted as a plain text string. -/
theorem celsius_encoding_by_accept {α : Type} (R : Runtime α) (req : HttpRequest)
    (s : String) (l : List String) (f : α)
    (hq : lookupAll req.query "fahrenheit" = s :: l) (hp : R.parseFloat s = some f) :
    (∀ b, req.accept = "application/json" →
      R.jsonMarshal (celsiusResolver R.ops { fahrenheit := f }) = .ok b →
      celsiusHandler R req = { status := 200, contentType := req.accept, body := .bytes b }) ∧
    (∀ b, req.accept = "application/protobuf" →
      R.protoMarshal (celsiusResolver R.ops { fahrenheit := f }) = .ok b →
      celsiusHandler R req = { status := 200, contentType := req.accept, body := .bytes b }) ∧
    (req.accept ≠ "application/json" → req.accept ≠ "application/protobuf" →
      celsiusHandler R req =
        { status := 200, contentType := "text/plain",
          body := .str (R.formatFloat (celsiusResolver R.ops { fahrenheit := f }).celsius) }) := by
  rw [celsiusHandler_parsed R req s l f hq hp]
  refine ⟨?_, ?_, ?_⟩
  · intro b hacc hok
    simp [respondWith, celsiusMarshaller, hacc, hok, Except.map]
  · intro b hacc hok
    simp [respondWith, celsiusMarshaller, hacc, hok, Except.map]
  · intro h1 h2
    simp [respondWith, celsiusMarshaller, h1, h2]

/-- Witness for C3: the default (absent accept header) branch at
fahrenheit=32. -/
theorem celsius_encoding_by_accept_witness :
    celsiusHandler toyRT req32 =
      { status := 200, contentType := "text/plain",
        body := .str (toyRT.formatFloat
          (celsiusResolver toyRT.ops { fahrenheit := 32 }).celsius) } :=
  (celsius_encoding_by_accept toyRT req32 "32" [] 32 rfl rfl).2.2
    (by decide) (by decide)

/-- C7: for every /celsius request with a present and parsable fahrenheit
parameter, a serialization error yields exactly status 500 with the error
text as plain-text body and no conversion body; when serialization
succeeds the status is 200; the status is always 200 or 500 in this case
(so the two 400 client errors and serialization errors are the only
failure modes). -/
theorem celsius_marshal_error_500 {α : Type} (R : Runtime α) (req : HttpRequest)
    (s : String) (l : List String) (f : α)
    (hq : lookupAll req.query "fahrenheit" = s :: l) (hp : R.parseFloat s = some f) :
    (∀ e, (celsiusMarshaller R req.accept (celsiusResolver R.ops { fahrenheit := f })).2 =
        .error e → celsiusHandler R req = httpError e 500) ∧
    (∀ b, (celsiusMarshaller R req.accept (celsiusResolver R.ops { fahrenheit := f })).2 =
        .ok b → (celsiusHandler R req).status = 200) ∧
    ((celsiusHandler R req).status = 500 →
      ∃ e, (celsiusMarshaller R req.accept (celsiusResolver R.ops { fahrenheit := f })).2 =
        .error e) ∧
    ((celsiusHandler R req).status = 200 ∨ (celsiusHandler R req).status = 500) := by
  rw [celsiusHandler_parsed R req s l f hq hp]
  refine ⟨?_, ?_, ?_, respondWith_status R req.accept _⟩
  · intro e he
    simp [respondWith, he]
  · intro b hb
    simp [respondWith, hb]
  · intro h500
    unfold respondWith at h500
    cases hm : (celsiusMarshaller R req.accept (celsiusResolver R.ops { fahrenheit := f })).2 with
    | error e => exact ⟨e, rfl⟩
    | ok b =>
      rw [hm] at h500
      simp at h500

/-- Witness for C7: a runtime whose json marshaller fails, at a request
with accept application/json. -/
theorem celsius_marshal_error_500_witness :
    celsiusHandler errRT reqJson = httpError "json marshal failed" 500 :=
  (celsius_marshal_error_500 errRT reqJson "32" [] 32 rfl rfl).1
    "json marshal failed" rfl

/-- C8: every request whose path is the root path is served by
helloHandler through the mux and gets status 200 with body
"Hello World!". -/
theorem hello_root_ok {α : Type} (R : Runtime α) (req : HttpRequest) (h : req.path = "/") :
    (getMux R req).status = 200 ∧ (getMux R req).body = .str "Hello World!" := by
  unfold getMux
  rw [h]
  exact ⟨rfl, rfl⟩

/-- Witness for C8 at the concrete root request. -/
theorem hello_root_ok_witness :
    reqRoot.path = "/" ∧
      (getMux toyRT reqRoot).status = 200 ∧ (getMux toyRT reqRoot).body = .str "Hello World!" :=
  ⟨rfl, hello_root_ok toyRT reqRoot rfl⟩

/-- C9: when the query string contains the fahrenheit parameter more than
once, only the first occurrence is used: the response equals the response
to the same request whose query holds only that first occurrence. -/
theorem celsius_first_occurrence {α : Type} (R : Runtime α) (req : HttpRequest)
    (v : String) (l : List String)
    (hq : lookupAll req.query "fahrenheit" = v :: l) :
    celsiusHandler R req =
      celsiusHandler R { path := req.path, query := [("fahrenheit", v)], accept := req.accept } := by
  have h2 : lookupAll [("fahrenheit", v)] "fahrenheit" = [v] := by
    simp [lookupAll]
  unfold celsiusHandler
  simp only [hq, h2]

/-- Witness for C9: fahrenheit given twice (32 then 212); the duplicate
response to the duplicate request equals the single-occurrence response. -/
theorem celsius_first_occurrence_witness :
    lookupAll reqDup.query "fahrenheit" = ["32", "212"] ∧
      celsiusHandler toyRT reqDup =
        celsiusHandler toyRT
          { path := reqDup.path, query := [("fahrenheit", "32")], accept := reqDup.accept } :=
  ⟨rfl, celsius_first_occurrence toyRT reqDup "32" ["212"] rfl⟩

/-- C10: for every successful /celsius request the Content-Type response
header equals the accept header when that is exactly application/json or
application/protobuf, and is text/plain for every other accept value,
including absent. -/
theorem celsius_contentType {α : Type} (R : Runtime α) (req : HttpRequest)
    (s : String) (l : List String) (f : α)
    (hq : lookupAll req.query "fahrenheit" = s :: l) (hp : R.parseFloat s = some f)
    (h200 : (celsiusHandler R req).status = 200) :
    (celsiusHandler R req).contentType =
      (if req.accept = "application/json" ∨ req.accept = "application/protobuf"
       then req.accept else "text/plain") := by
  rw [celsiusHandler_parsed R req s l f hq hp] at h200 ⊢
  unfold respondWith at h200 ⊢
  cases hm : (celsiusMarshaller R req.accept (celsiusResolver R.ops { fahrenheit := f })).2 with
  | error e =>
    rw [hm] at h200
    simp [httpError] at h200
  | ok b =>
    by_cases hj : req.accept = "application/json"
    · simp [celsiusMarshaller, hj]
    · by_cases hpb : req.accept = "application/protobuf"
      · simp [celsiusMarshaller, hpb]
      · simp [celsiusMarshaller, hj, hpb]

/-- Witness for C10: the default branch at fahrenheit=32 with no accept
header. -/
theorem celsius_contentType_witness :
    (celsiusHandler toyRT req32).contentType =
      (if req32.accept = "application/json" ∨ req32.accept = "application/protobuf"
       then req32.accept else "text/plain") :=
  celsius_contentType toyRT req32 "32" [] 32 rfl rfl rfl

end TempConvert
